import Mathlib

/-!
Verification of the real-time messaging subsystem of the ReactStore backend
(`src/websockets/handlers.ts` and its observed earlier revisions).

The embedding is shallow: the relational tables (`users`, `products`, `chats`,
`messages`) become lists of structures, the SQL queries used by the handlers
become pure functions over those lists, the socket.io side effects become an
explicit list of emitted events, and the module-level `connectedUsers`
JavaScript `Map` becomes an association list with `Map` semantics
(`set` overwrites the entry for a key, `delete` removes it).

Handlers are modelled per authenticated connection: the `tokenOk` flag stands
for the result of `verifyUser` (the re-validation performed by
`joinConversation`, `createConversationAndMessage`, `listMessages` and
`listConversations`; `sendMessage` performs no such call in the source).
The `msgInsertFails` flag models the message `INSERT` query throwing, which
the source catches and converts to an `Internal server error` event.
-/

namespace ReactStore

/-- A row of the `users` table (the fields the messaging handlers read). -/
structure User where
  userid : String
  profileimageurl : String
deriving Repr, DecidableEq

/-- A row of the `products` table (the fields the messaging handlers read). -/
structure Product where
  productid : Nat
  userid : String
  name : String
  imageurl : String
deriving Repr, DecidableEq

/-- A row of the `chats` table. -/
structure Chat where
  chatid : Nat
  productid : Nat
  buyeruserid : String
  owneruserid : String
  createdat : Nat
deriving Repr, DecidableEq

/-- A row of the `messages` table. -/
structure Message where
  messageid : Nat
  chatid : Nat
  senderuserid : String
  content : String
  createdat : Nat
deriving Repr, DecidableEq

/-- The relational store as seen by the handlers, together with the id
counters and the clock (`NOW()`) used by the two `INSERT` statements. -/
structure DbState where
  users : List User
  products : List Product
  chats : List Chat
  messages : List Message
  nextChatId : Nat
  nextMessageId : Nat
  now : Nat
deriving Repr, DecidableEq

/-! ### The `connectedUsers` JavaScript `Map` (userId -> socket.id) -/

/-- `Map.get`: the value stored under `k`, if any. -/
def mapGet (m : List (String × String)) (k : String) : Option String :=
  match m with
  | [] => none
  | (k', v) :: rest => if k' == k then some v else mapGet rest k

/-- `Map.set`: stores `v` under `k`, overwriting an existing entry. -/
def mapSet (m : List (String × String)) (k v : String) : List (String × String) :=
  match m with
  | [] => [(k, v)]
  | (k', v') :: rest => if k' == k then (k, v) :: rest else (k', v') :: mapSet rest k v

/-- `Map.delete`: removes the entry stored under `k`, if any. -/
def mapDelete (m : List (String × String)) (k : String) : List (String × String) :=
  match m with
  | [] => []
  | (k', v) :: rest => if k' == k then rest else (k', v) :: mapDelete rest k

/-- The connection handler's registration step:
`connectedUsers.set(userId, socket.id)` (handlers.ts line 52). -/
def registerConnection (m : List (String × String)) (userId socketId : String) :
    List (String × String) :=
  mapSet m userId socketId

/-- The `disconnect` handler: `connectedUsers.delete(userId)`
(handlers.ts line 539); it deletes the user's entry whichever of the user's
sockets disconnected. -/
def disconnectHandler (m : List (String × String)) (userId : String) :
    List (String × String) :=
  mapDelete m userId

/-! ### Query layer: the SQL statements of the handlers as pure functions -/

/-- Ascending `ORDER BY createdat` on message rows. -/
def msgLe (a b : Message) : Prop := a.createdat ≤ b.createdat

instance : DecidableRel msgLe := fun a b => Nat.decLe a.createdat b.createdat

instance : IsTotal Message msgLe := ⟨fun a b => Nat.le_total a.createdat b.createdat⟩

instance : IsTrans Message msgLe := ⟨fun _ _ _ h₁ h₂ => Nat.le_trans h₁ h₂⟩

/-- Descending `ORDER BY createdat` on message rows (used by the
`LIMIT 1` last-message subqueries). -/
def msgGe (a b : Message) : Prop := b.createdat ≤ a.createdat

instance : DecidableRel msgGe := fun a b => Nat.decLe b.createdat a.createdat

/-- A row of the `listMessages` query: the message joined with the sender's
profile image and the chat's product image. -/
abbrev MsgRow := Message × String × String

/-- Ascending `ORDER BY m.createdat` on joined message rows. -/
def rowLe (a b : MsgRow) : Prop := a.1.createdat ≤ b.1.createdat

instance : DecidableRel rowLe := fun a b => Nat.decLe a.1.createdat b.1.createdat

instance : IsTotal MsgRow rowLe := ⟨fun a b => Nat.le_total a.1.createdat b.1.createdat⟩

instance : IsTrans MsgRow rowLe := ⟨fun _ _ _ h₁ h₂ => Nat.le_trans h₁ h₂⟩

/-- `SELECT userid FROM products WHERE productid = $1`, first row. -/
def productOwner (db : DbState) (pid : Nat) : Option String :=
  ((db.products.filter (fun p => p.productid == pid)).head?).map Product.userid

/-- `SELECT ... FROM chats WHERE productid = $1 AND (buyeruserid = $2 OR
owneruserid = $2)`, first row (the existing-chat lookup of
`createConversationAndMessage`). -/
def findChatForProductAndUser (db : DbState) (pid : Nat) (uid : String) : Option Chat :=
  (db.chats.filter
    (fun c => c.productid == pid && (c.buyeruserid == uid || c.owneruserid == uid))).head?

/-- `SELECT buyeruserid, owneruserid FROM chats WHERE chatid = $1 AND
(buyeruserid = $2 OR owneruserid = $2)`, first row (the combined
existence-and-membership check of `sendMessage`). -/
def findChatByIdForUser (db : DbState) (cid : Nat) (uid : String) : Option Chat :=
  (db.chats.filter
    (fun c => c.chatid == cid && (c.buyeruserid == uid || c.owneruserid == uid))).head?

/-- The profile image of a user, via the `JOIN users` clauses. -/
def userImage (db : DbState) (uid : String) : Option String :=
  ((db.users.filter (fun u => u.userid == uid)).head?).map User.profileimageurl

/-- The first product image of the product a chat is about, via the
`JOIN chats JOIN products` clauses of the `listMessages` query. -/
def chatProductImage (db : DbState) (cid : Nat) : Option String :=
  match (db.chats.filter (fun c => c.chatid == cid)).head? with
  | none => none
  | some c => ((db.products.filter (fun p => p.productid == c.productid)).head?).map
      Product.imageurl

/-- The `chatDetailsQuery` of `joinConversation`: the chat row joined with
both participants' profile images; `none` when the chat or either `users`
join partner is absent (the query then returns zero rows). -/
def chatDetails (db : DbState) (cid : Nat) : Option (Chat × String × String) :=
  match (db.chats.filter (fun c => c.chatid == cid)).head? with
  | none => none
  | some c =>
    match userImage db c.buyeruserid, userImage db c.owneruserid with
    | some bImg, some oImg => some (c, bImg, oImg)
    | _, _ => none

/-- `SELECT ... FROM messages WHERE chatid = $1 ORDER BY createdat ASC`
(the message load of `joinConversation`). -/
def messagesForChat (db : DbState) (cid : Nat) : List Message :=
  List.insertionSort msgLe (db.messages.filter (fun m => m.chatid == cid))

/-- The `listMessages` query: messages of the chat created on or after
`since`, inner-joined with the sender's image and the product image,
ordered ascending by creation time. -/
def listMessagesRows (db : DbState) (cid : Nat) (since : Nat) : List MsgRow :=
  List.insertionSort rowLe
    ((db.messages.filter (fun m => m.chatid == cid && since ≤ m.createdat)).filterMap
      (fun m =>
        match userImage db m.senderuserid, chatProductImage db m.chatid with
        | some sImg, some pImg => some (m, sImg, pImg)
        | _, _ => none))

/-- `ORDER BY m.createdat DESC LIMIT 1` over a chat's messages. -/
def lastMessageOf (db : DbState) (cid : Nat) : Option Message :=
  (List.insertionSort msgGe (db.messages.filter (fun m => m.chatid == cid))).head?

/-- One row of the `conversationsQuery` result as mapped by the handlers. -/
structure ConvRow where
  chatId : Nat
  productId : Nat
  productName : String
  productImage : String
  buyerImage : String
  ownerImage : String
  lastMessage : String
  lastMessageDate : Nat
  otherUserId : String
  otherUserImage : String
deriving Repr, DecidableEq

/-- Descending `ORDER BY last_message_date` on conversation rows. -/
def convDesc (a b : ConvRow) : Prop := b.lastMessageDate ≤ a.lastMessageDate

instance : DecidableRel convDesc := fun a b => Nat.decLe b.lastMessageDate a.lastMessageDate

/-- One chat turned into a `conversationsQuery` row for `viewer`: the product
and both `users` join partners must exist, the last message content defaults
to the `'No messages yet'` sentinel and the last message date to the chat's
creation time (`COALESCE`). -/
def convRowFor (db : DbState) (viewer : String) (c : Chat) : Option ConvRow :=
  match (db.products.filter (fun p => p.productid == c.productid)).head?,
        userImage db c.buyeruserid, userImage db c.owneruserid with
  | some p, some bImg, some oImg =>
    some
      { chatId := c.chatid
        productId := c.productid
        productName := p.name
        productImage := p.imageurl
        buyerImage := bImg
        ownerImage := oImg
        lastMessage := ((lastMessageOf db c.chatid).map Message.content).getD "No messages yet"
        lastMessageDate := ((lastMessageOf db c.chatid).map Message.createdat).getD c.createdat
        otherUserId := if c.owneruserid == viewer then c.buyeruserid else c.owneruserid
        otherUserImage := if c.owneruserid == viewer then bImg else oImg }
  | _, _, _ => none

/-- The full `conversationsQuery` for a viewer: one row per chat where the
viewer is buyer or owner, ordered descending by derived last-message date. -/
def listConversationsQuery (db : DbState) (viewer : String) : List ConvRow :=
  List.insertionSort convDesc
    ((db.chats.filter
        (fun c => c.buyeruserid == viewer || c.owneruserid == viewer)).filterMap
      (convRowFor db viewer))

/-! ### Outbound events -/

/-- The `data` payload of a `message_created` event. -/
structure MessagePayload where
  chatId : Nat
  senderUserId : String
  content : String
  createdAt : Nat
  isCurrentUser : Bool
deriving Repr, DecidableEq

/-- A formatted message of the `joinConversation` reply. -/
structure JoinedMessage where
  messageId : Nat
  isCurrentUser : Bool
  content : String
  createdAt : Nat
  senderImage : String
deriving Repr, DecidableEq

/-- A formatted message of the `listMessages` reply. -/
structure ListedMessage where
  messageId : Nat
  content : String
  senderUserId : String
  createdAt : Nat
  senderImage : String
  productImage : String
  isCurrentUser : Bool
deriving Repr, DecidableEq

/-- A formatted message of the earliest revision's `joinConversation` reply
(`src/unnamed/part_001`, which returned no image fields). -/
structure V1Message where
  messageId : Nat
  isCurrentUser : Bool
  content : String
  createdAt : Nat
deriving Repr, DecidableEq

/-- One socket.io emission performed by a handler.
`messageCreatedBroadcast` stands for `socket.broadcast.to('chat_<room>')`
(delivered to every connection in the room except the emitting socket) and
`messageCreatedSelf` for the accompanying `socket.emit` to the caller.
`conversationsListed` is the `io.to(socketId)` push of the Conversation Sync
Broadcaster; `conversationsListedSelf` is the `listConversations` handler's
own reply. `listConversationsEvt` is the literal
`socket.emit('listConversations')` call at the end of the two message
handlers, which merely sends an event named `listConversations` to the
caller's client and is not a `conversations_listed` push. -/
inductive Emit where
  | errorMsg (msg : String)
  | joinMessagesListed (chatId : Nat) (messages : List JoinedMessage)
      (isCurrentUserImage otherUserImage : String)
  | v1MessagesListed (chatId : Nat) (messages : List V1Message)
  | listMessagesListed (chatId : Nat) (messages : List ListedMessage)
  | messageCreatedBroadcast (room : Nat) (data : MessagePayload)
  | messageCreatedSelf (data : MessagePayload)
  | conversationsListed (targetSocketId : String) (conversations : List ConvRow)
  | conversationsListedSelf (conversations : List ConvRow)
  | eventConfirmation (msg : String)
  | listConversationsEvt
deriving Repr, DecidableEq

/-! ### Handlers -/

/-- JavaScript falsiness of the numeric id fields (`!productid`, `!chatId`):
true when the field is absent or `0`. -/
def falsyNat : Option Nat → Bool
  | none => true
  | some n => n == 0

/-- JavaScript falsiness of the `content` field (`!content`): true when the
field is absent or the empty string. -/
def falsyStr : Option String → Bool
  | none => true
  | some s => s == ""

/-- `socket.join('chat_<r>')`: a socket's room set only gains `r` if it is
not already present. -/
def roomJoin (rooms : List Nat) (r : Nat) : List Nat :=
  if r ∈ rooms then rooms else rooms ++ [r]

/-- The formatting lambda of `joinConversation` (handlers.ts lines 131-137):
`isCurrentUser` compares the sender to the viewing user, and the sender
image is chosen by the same comparison. -/
def joinFmt (userId isCurrentUserImage otherUserImage : String) (m : Message) :
    JoinedMessage :=
  { messageId := m.messageid
    isCurrentUser := m.senderuserid == userId
    content := m.content
    createdAt := m.createdat
    senderImage := if m.senderuserid == userId then isCurrentUserImage else otherUserImage }

/-- The `joinConversation` handler of the current revision
(handlers.ts lines 75-150). It takes the connection's joined-rooms set and
returns it together with the emissions; the source performs no
`socket.join`, so every branch leaves the set as it was. -/
def joinConversation (db : DbState) (rooms : List Nat) (tokenOk : Bool)
    (userId : String) (chatId : Nat) : List Nat × List Emit :=
  if !tokenOk then
    (rooms, [Emit.errorMsg "Unauthorized. Invalid or expired token"])
  else
    match chatDetails db chatId with
    | none => (rooms, [Emit.errorMsg "Conversation not found"])
    | some (chat, buyerImage, ownerImage) =>
      let isCurrentUserImage := if userId == chat.buyeruserid then buyerImage else ownerImage
      let otherUserImage := if userId == chat.buyeruserid then ownerImage else buyerImage
      let msgs := messagesForChat db chatId
      if msgs.length == 0 then
        (rooms, [Emit.errorMsg "No messages found for this chat"])
      else
        (rooms,
          [Emit.joinMessagesListed chatId
            (msgs.map (joinFmt userId isCurrentUserImage otherUserImage))
            isCurrentUserImage otherUserImage])

/-- The `joinConversation` handler of the earliest revision
(`src/unnamed/part_001` lines 28-68): it first performs
`socket.join('chat_<chatId>')`, then validates the date (`none` models an
unparsable date), then loads the messages created on or after it. -/
def joinConversationV1 (db : DbState) (rooms : List Nat) (userId : String)
    (chatId : Nat) (date : Option Nat) : List Nat × List Emit :=
  let rooms1 := roomJoin rooms chatId
  match date with
  | none => (rooms1, [Emit.errorMsg "Invalid date format"])
  | some since =>
    let msgs := List.insertionSort msgLe
      (db.messages.filter (fun m => m.chatid == chatId && since ≤ m.createdat))
    if msgs.length == 0 then
      (rooms1, [Emit.errorMsg "No messages found for this chat"])
    else
      (rooms1,
        [Emit.v1MessagesListed chatId
          (msgs.map (fun m =>
            { messageId := m.messageid
              isCurrentUser := m.senderuserid == userId
              content := m.content
              createdAt := m.createdat }))])

/-- The formatting lambda of `listMessages` (handlers.ts lines 451-459). -/
def listFmt (userId : String) (r : MsgRow) : ListedMessage :=
  { messageId := r.1.messageid
    content := r.1.content
    senderUserId := r.1.senderuserid
    createdAt := r.1.createdat
    senderImage := r.2.1
    productImage := r.2.2
    isCurrentUser := r.1.senderuserid == userId }

/-- The `listMessages` handler (handlers.ts lines 427-469). It performs no
participancy check on the caller. -/
def listMessages (db : DbState) (tokenOk : Bool) (userId : String)
    (chatId : Nat) (date : Nat) : List Emit :=
  if !tokenOk then
    [Emit.errorMsg "Unauthorized. Invalid or expired token"]
  else
    [Emit.listMessagesListed chatId
      ((listMessagesRows db chatId date).map (listFmt userId))]

/-- The `listConversations` handler (handlers.ts lines 472-535). -/
def listConversations (db : DbState) (tokenOk : Bool) (userId : String) : List Emit :=
  if !tokenOk then
    [Emit.errorMsg "Unauthorized. Invalid or expired token"]
  else
    [Emit.conversationsListedSelf (listConversationsQuery db userId)]

/-- The `sendMessage` handler (handlers.ts lines 304-424). The source
registers no `verifyUser` call for this event. `msgInsertFails` models the
message `INSERT` throwing, caught as `Internal server error`. -/
def sendMessage (db : DbState) (connectedUsers : List (String × String))
    (userId : String) (chatId? : Option Nat) (content? : Option String)
    (msgInsertFails : Bool) : DbState × List Emit :=
  if falsyNat chatId? || falsyStr content? then
    (db, [Emit.errorMsg "All data is mandatory"])
  else
    let chatId := chatId?.getD 0
    let content := content?.getD ""
    match findChatByIdForUser db chatId userId with
    | none => (db, [Emit.errorMsg "Conversation not found or unauthorized"])
    | some chat =>
      if msgInsertFails then
        (db, [Emit.errorMsg "Internal server error"])
      else
        let newMsg : Message :=
          { messageid := db.nextMessageId, chatid := chatId, senderuserid := userId,
            content := content, createdat := db.now }
        let db1 := { db with
          messages := db.messages ++ [newMsg], nextMessageId := db.nextMessageId + 1 }
        let payload : MessagePayload :=
          { chatId := chatId, senderUserId := userId, content := content,
            createdAt := db.now, isCurrentUser := false }
        let recipientUserId :=
          if userId == chat.owneruserid then chat.buyeruserid else chat.owneruserid
        let pushEmits :=
          match mapGet connectedUsers recipientUserId with
          | some sid =>
            [Emit.conversationsListed sid (listConversationsQuery db1 recipientUserId)]
          | none => []
        (db1,
          [Emit.messageCreatedBroadcast chatId payload,
           Emit.messageCreatedSelf { payload with isCurrentUser := true }]
          ++ pushEmits
          ++ [Emit.eventConfirmation "Event sendMessage triggered successfully",
              Emit.listConversationsEvt])

/-- The common tail of `createConversationAndMessage` in the current
revision (handlers.ts lines 202-296): insert the message, broadcast and
unicast it, compute the recipient from the product owner and the resolved
buyer, and push the refreshed conversation list to the recipient's
registered socket only. -/
def ccmFinish (db : DbState) (connectedUsers : List (String × String))
    (userId owneruserid : String) (chatId : Nat) (buyeruserid : String)
    (content : String) (msgInsertFails : Bool) : DbState × List Emit :=
  if msgInsertFails then
    (db, [Emit.errorMsg "Internal server error"])
  else
    let newMsg : Message :=
      { messageid := db.nextMessageId, chatid := chatId, senderuserid := userId,
        content := content, createdat := db.now }
    let db1 := { db with
      messages := db.messages ++ [newMsg], nextMessageId := db.nextMessageId + 1 }
    let payload : MessagePayload :=
      { chatId := chatId, senderUserId := userId, content := content,
        createdAt := db.now, isCurrentUser := false }
    let recipientUserId := if userId == owneruserid then buyeruserid else owneruserid
    let pushEmits :=
      match mapGet connectedUsers recipientUserId with
      | some sid =>
        [Emit.conversationsListed sid (listConversationsQuery db1 recipientUserId)]
      | none => []
    (db1,
      [Emit.messageCreatedBroadcast chatId payload,
       Emit.messageCreatedSelf { payload with isCurrentUser := true }]
      ++ pushEmits
      ++ [Emit.eventConfirmation "Event createConversationAndMessage triggered successfully",
          Emit.listConversationsEvt])

/-- The `createConversationAndMessage` handler of the current revision
(handlers.ts lines 153-301). The self-chat `Forbidden` rejection sits inside
the no-existing-chat branch. -/
def createConversationAndMessage (db : DbState)
    (connectedUsers : List (String × String)) (tokenOk : Bool) (userId : String)
    (productid? : Option Nat) (content? : Option String)
    (msgInsertFails : Bool) : DbState × List Emit :=
  if !tokenOk then
    (db, [Emit.errorMsg "Unauthorized. Invalid or expired token"])
  else if falsyNat productid? || falsyStr content? then
    (db, [Emit.errorMsg "All data is mandatory"])
  else
    let productid := productid?.getD 0
    let content := content?.getD ""
    match productOwner db productid with
    | none => (db, [Emit.errorMsg "Product not found"])
    | some owneruserid =>
      match findChatForProductAndUser db productid userId with
      | none =>
        if userId == owneruserid then
          (db, [Emit.errorMsg "You cannot create a conversation for your own product"])
        else
          let newChat : Chat :=
            { chatid := db.nextChatId, productid := productid, buyeruserid := userId,
              owneruserid := owneruserid, createdat := db.now }
          let db1 := { db with
            chats := db.chats ++ [newChat], nextChatId := db.nextChatId + 1 }
          ccmFinish db1 connectedUsers userId owneruserid newChat.chatid userId
            content msgInsertFails
      | some chat =>
        ccmFinish db connectedUsers userId owneruserid chat.chatid chat.buyeruserid
          content msgInsertFails

/-- The tail of `createConversationAndMessage` in the `src/unnamed/part_002`
revision (lines 201-321): identical to `ccmFinish` except that it also
pushes the sender's refreshed conversation list to the sender's registered
socket. -/
def ccmFinishBoth (db : DbState) (connectedUsers : List (String × String))
    (userId owneruserid : String) (chatId : Nat) (buyeruserid : String)
    (content : String) (msgInsertFails : Bool) : DbState × List Emit :=
  if msgInsertFails then
    (db, [Emit.errorMsg "Internal server error"])
  else
    let newMsg : Message :=
      { messageid := db.nextMessageId, chatid := chatId, senderuserid := userId,
        content := content, createdat := db.now }
    let db1 := { db with
      messages := db.messages ++ [newMsg], nextMessageId := db.nextMessageId + 1 }
    let payload : MessagePayload :=
      { chatId := chatId, senderUserId := userId, content := content,
        createdAt := db.now, isCurrentUser := false }
    let recipientUserId := if userId == owneruserid then buyeruserid else owneruserid
    let recipientPush :=
      match mapGet connectedUsers recipientUserId with
      | some sid =>
        [Emit.conversationsListed sid (listConversationsQuery db1 recipientUserId)]
      | none => []
    let senderPush :=
      match mapGet connectedUsers userId with
      | some sid => [Emit.conversationsListed sid (listConversationsQuery db1 userId)]
      | none => []
    (db1,
      [Emit.messageCreatedBroadcast chatId payload,
       Emit.messageCreatedSelf { payload with isCurrentUser := true }]
      ++ recipientPush ++ senderPush
      ++ [Emit.eventConfirmation "Event createConversationAndMessage triggered successfully",
          Emit.listConversationsEvt])

/-- The `createConversationAndMessage` handler of the `src/unnamed/part_002`
revision (lines 153-326), which pushes the refreshed conversation list to
both participants. -/
def createConversationAndMessageV2 (db : DbState)
    (connectedUsers : List (String × String)) (tokenOk : Bool) (userId : String)
    (productid? : Option Nat) (content? : Option String)
    (msgInsertFails : Bool) : DbState × List Emit :=
  if !tokenOk then
    (db, [Emit.errorMsg "Unauthorized. Invalid or expired token"])
  else if falsyNat productid? || falsyStr content? then
    (db, [Emit.errorMsg "All data is mandatory"])
  else
    let productid := productid?.getD 0
    let content := content?.getD ""
    match productOwner db productid with
    | none => (db, [Emit.errorMsg "Product not found"])
    | some owneruserid =>
      match findChatForProductAndUser db productid userId with
      | none =>
        if userId == owneruserid then
          (db, [Emit.errorMsg "You cannot create a conversation for your own product"])
        else
          let newChat : Chat :=
            { chatid := db.nextChatId, productid := productid, buyeruserid := userId,
              owneruserid := owneruserid, createdat := db.now }
          let db1 := { db with
            chats := db.chats ++ [newChat], nextChatId := db.nextChatId + 1 }
          ccmFinishBoth db1 connectedUsers userId owneruserid newChat.chatid userId
            content msgInsertFails
      | some chat =>
        ccmFinishBoth db connectedUsers userId owneruserid chat.chatid chat.buyeruserid
          content msgInsertFails

/-! ### Delivery of `message_created` events -/

/-- A live socket.io connection: its socket id, the authenticated user who
owns it, and the rooms it has joined. -/
structure Conn where
  sockid : String
  userId : String
  rooms : List Nat
deriving Repr, DecidableEq

/-- The connections a single emission reaches, with the payload each one
receives: `socket.broadcast.to(room)` reaches every connection in the room
except the emitting socket, and `socket.emit` reaches the emitting socket. -/
def emitDeliveries (conns : List Conn) (senderSock : String) :
    Emit → List (String × String × MessagePayload)
  | Emit.messageCreatedBroadcast room p =>
    (conns.filter (fun c => c.rooms.contains room && !(c.sockid == senderSock))).map
      (fun c => (c.sockid, c.userId, p))
  | Emit.messageCreatedSelf p =>
    match conns.find? (fun c => c.sockid == senderSock) with
    | some c => [(c.sockid, c.userId, p)]
    | none => []
  | _ => []

/-- All `message_created` deliveries of a handler's emission list:
triples of receiving socket id, receiving user id, and payload. -/
def messageDeliveries (conns : List Conn) (senderSock : String)
    (emits : List Emit) : List (String × String × MessagePayload) :=
  (emits.map (emitDeliveries conns senderSock)).flatten

/-- The socket ids targeted by `conversations_listed` pushes in an emission
list (the observable footprint of the Conversation Sync Broadcaster). -/
def convPushTargets (emits : List Emit) : List String :=
  emits.filterMap (fun e =>
    match e with
    | Emit.conversationsListed sid _ => some sid
    | _ => none)

/-- The chat identifier a message handler actually wrote to, read off the
`message_created` unicast it sends to the caller. -/
def usedChatId (emits : List Emit) : Option Nat :=
  (emits.filterMap (fun e =>
    match e with
    | Emit.messageCreatedSelf p => some p.chatId
    | _ => none)).head?

/-! ### Concrete fixtures for counterexamples and witnesses -/

/-- Fixture: user `A`, the product owner. -/
def userA : User := { userid := "A", profileimageurl := "imgA" }

/-- Fixture: user `B`, the buyer. -/
def userB : User := { userid := "B", profileimageurl := "imgB" }

/-- Fixture: user `D`, a third party. -/
def userD : User := { userid := "D", profileimageurl := "imgD" }

/-- Fixture: product 1, owned by `A`. -/
def product1 : Product := { productid := 1, userid := "A", name := "prod", imageurl := "imgP" }

/-- Fixture: chat 1 about product 1, buyer `B`, owner `A`. -/
def chat1 : Chat :=
  { chatid := 1, productid := 1, buyeruserid := "B", owneruserid := "A", createdat := 0 }

/-- Fixture: the single message of chat 1, sent by `B`. -/
def message1 : Message :=
  { messageid := 1, chatid := 1, senderuserid := "B", content := "hi", createdat := 5 }

/-- Fixture: store holding product 1 and chat 1 with one message. -/
def dbWithChat : DbState :=
  { users := [userA, userB, userD], products := [product1], chats := [chat1],
    messages := [message1], nextChatId := 2, nextMessageId := 2, now := 10 }

/-- Fixture: store holding product 1 and no chats or messages yet. -/
def dbFresh : DbState :=
  { users := [userA, userB, userD], products := [product1], chats := [],
    messages := [], nextChatId := 1, nextMessageId := 1, now := 10 }

/-- Fixture: user `B` holds two live sockets in chat 1's room, user `A` one. -/
def connsTwoForB : List Conn :=
  [{ sockid := "s1", userId := "B", rooms := [1] },
   { sockid := "s2", userId := "B", rooms := [1] },
   { sockid := "s3", userId := "A", rooms := [1] }]

/-! ### Helper lemmas -/

theorem mapGet_mapSet_self (m : List (String × String)) (k v : String) :
    mapGet (mapSet m k v) k = some v := by
  induction m with
  | nil => simp [mapGet, mapSet]
  | cons hd tl ih =>
    obtain ⟨k', v'⟩ := hd
    by_cases h : k' = k
    · simp [mapGet, mapSet, h]
    · simp only [mapSet, mapGet]
      rw [if_neg (by simpa using h), mapGet, if_neg (by simpa using h)]
      exact ih

theorem roomJoin_idem (rooms : List Nat) (r : Nat) :
    roomJoin (roomJoin rooms r) r = roomJoin rooms r := by
  by_cases h : r ∈ rooms
  · simp [roomJoin, h]
  · simp [roomJoin, h]

theorem joinConversationV1_rooms (db : DbState) (rooms : List Nat) (userId : String)
    (chatId : Nat) (date : Option Nat) :
    (joinConversationV1 db rooms userId chatId date).1 = roomJoin rooms chatId := by
  unfold joinConversationV1
  cases date with
  | none => rfl
  | some since =>
    dsimp only []
    split <;> rfl

theorem convPushTargets_append (l1 l2 : List Emit) :
    convPushTargets (l1 ++ l2) = convPushTargets l1 ++ convPushTargets l2 := by
  simp [convPushTargets]

theorem convPushTargets_ccmFinish (db : DbState) (cu : List (String × String))
    (userId owneruserid : String) (chatId : Nat) (buyeruserid content : String) :
    convPushTargets (ccmFinish db cu userId owneruserid chatId buyeruserid content false).2
      = (mapGet cu (if userId == owneruserid then buyeruserid else owneruserid)).toList := by
  unfold ccmFinish
  dsimp only []
  cases h : mapGet cu (if userId == owneruserid then buyeruserid else owneruserid) <;>
    simp [h, convPushTargets]

theorem convPushTargets_ccmFinishBoth (db : DbState) (cu : List (String × String))
    (userId owneruserid : String) (chatId : Nat) (buyeruserid content : String) :
    convPushTargets (ccmFinishBoth db cu userId owneruserid chatId buyeruserid content false).2
      = (mapGet cu (if userId == owneruserid then buyeruserid else owneruserid)).toList
        ++ (mapGet cu userId).toList := by
  unfold ccmFinishBoth
  dsimp only []
  cases h : mapGet cu (if userId == owneruserid then buyeruserid else owneruserid) <;>
    cases h2 : mapGet cu userId <;> simp [h, h2, convPushTargets]

theorem ccmFinish_state (db : DbState) (cu : List (String × String))
    (userId owneruserid : String) (chatId : Nat) (buyeruserid content : String) :
    (ccmFinish db cu userId owneruserid chatId buyeruserid content false).1
      = { db with
          messages := db.messages ++
            [{ messageid := db.nextMessageId, chatid := chatId, senderuserid := userId,
               content := content, createdat := db.now }],
          nextMessageId := db.nextMessageId + 1 } := by
  unfold ccmFinish
  dsimp only []
  cases h : mapGet cu (if userId == owneruserid then buyeruserid else owneruserid) <;> simp [h]

theorem ccmFinish_usedChatId (db : DbState) (cu : List (String × String))
    (userId owneruserid : String) (chatId : Nat) (buyeruserid content : String) :
    usedChatId (ccmFinish db cu userId owneruserid chatId buyeruserid content false).2
      = some chatId := by
  unfold ccmFinish
  dsimp only []
  cases h : mapGet cu (if userId == owneruserid then buyeruserid else owneruserid) <;>
    simp [h, usedChatId]

/-! ### Claims -/

/-- C2 (counterexample): the presence directory does not keep a set of
connections per user. After user `u` registers sockets `s1` then `s2` and
the disconnect handler runs for one of them, the user's presence entry is
gone entirely — the claim predicts a surviving registration for the other
connection. -/
theorem presence_two_connections_lost :
    mapGet (disconnectHandler
      (registerConnection (registerConnection [] "u" "s1") "u" "s2") "u") "u" = none ∧
    mapGet (registerConnection (registerConnection [] "u" "s1") "u" "s2") "u" ≠ some "s1" := by
  exact ⟨rfl, by decide⟩

/-- C2 (amended): `connectedUsers` maps each user id to the single most
recent socket id: registering a connection overwrites any previous entry for
the user, and the disconnect handler deletes the user's whole entry
(`connectedUsers.delete(userId)`) regardless of which of the user's sockets
disconnected. -/
theorem presence_single_entry_semantics (m : List (String × String)) (u s s1 s2 : String) :
    mapGet (registerConnection m u s) u = some s ∧
    mapGet (registerConnection (registerConnection m u s1) u s2) u = some s2 ∧
    mapGet (disconnectHandler (registerConnection (registerConnection [] u s1) u s2) u) u
      = none := by
  refine ⟨mapGet_mapSet_self m u s, mapGet_mapSet_self _ u s2, ?_⟩
  simp [registerConnection, disconnectHandler, mapSet, mapDelete, mapGet]

/-- C5 (counterexample): in the current revision, a connection with an empty
joined-rooms set that handles `joinConversation` for existing chat 1 (which
succeeds, emitting the message list) still has an empty joined-rooms set:
the handler never joins the room. -/
theorem joinConversation_does_not_join_room :
    (joinConversation dbWithChat [] true "B" 1).1 = [] ∧
    (joinConversation dbWithChat [] true "B" 1).2
      = [Emit.joinMessagesListed 1
          [{ messageId := 1, isCurrentUser := true, content := "hi", createdAt := 5,
             senderImage := "imgB" }]
          "imgB" "imgA"] := by
  exact ⟨rfl, rfl⟩

/-- C5 (amended): the current revision's `joinConversation` leaves the
connection's joined-rooms set unchanged on every path (rooms are joined only
at connection establishment); the earliest revision's `joinConversation`
performs the room join, and that join is idempotent — handling the event a
second time leaves the joined-rooms set where the first handling put it. -/
theorem joinConversation_rooms_behavior (db : DbState) (rooms : List Nat)
    (tokenOk : Bool) (userId : String) (chatId : Nat) (date : Option Nat) :
    (joinConversation db rooms tokenOk userId chatId).1 = rooms ∧
    (joinConversationV1 db rooms userId chatId date).1 = roomJoin rooms chatId ∧
    (joinConversationV1 db (joinConversationV1 db rooms userId chatId date).1
        userId chatId date).1
      = (joinConversationV1 db rooms userId chatId date).1 := by
  refine ⟨?_, joinConversationV1_rooms db rooms userId chatId date, ?_⟩
  · unfold joinConversation
    split
    · rfl
    · split
      · rfl
      · dsimp only []
        split <;> rfl
  · rw [joinConversationV1_rooms, joinConversationV1_rooms, roomJoin_idem]

/-- C8: `sendMessage` with empty content, and `createConversationAndMessage`
with a missing or empty field, fail the `'All data is mandatory'` validation
before touching the store: the state is returned unchanged and the only
emission is the error — no message row, no broadcast, no conversation-sync
push. -/
theorem empty_content_validation (db : DbState) (cu : List (String × String))
    (u : String) (cid pid : Nat) (content : String) :
    sendMessage db cu u (some cid) (some "") false
      = (db, [Emit.errorMsg "All data is mandatory"]) ∧
    createConversationAndMessage db cu true u (some pid) none false
      = (db, [Emit.errorMsg "All data is mandatory"]) ∧
    createConversationAndMessage db cu true u none (some content) false
      = (db, [Emit.errorMsg "All data is mandatory"]) ∧
    createConversationAndMessage db cu true u (some pid) (some "") false
      = (db, [Emit.errorMsg "All data is mandatory"]) := by
  refine ⟨?_, ?_, ?_, ?_⟩ <;>
    simp [sendMessage, createConversationAndMessage, falsyNat, falsyStr]

/-- No error event is emitted by the successful tail of
`createConversationAndMessage`. -/
theorem errorMsg_not_mem_ccmFinish (db : DbState) (cu : List (String × String))
    (userId ow : String) (chatId : Nat) (buy content msg : String) :
    Emit.errorMsg msg ∉ (ccmFinish db cu userId ow chatId buy content false).2 := by
  unfold ccmFinish
  dsimp only []
  cases h : mapGet cu (if userId == ow then buy else ow) <;> simp [h]

/-- C1 (counterexample): user `A` owns product 1 and chat 1 about product 1
already exists (buyer `B`). `A` calling `createConversationAndMessage` on
its own product does not fail: a message with sender `A` is appended to the
existing chat and no `Forbidden` error is emitted — the claim predicts
failure regardless of whether a chat exists. -/
theorem ccm_owner_existing_chat_sends :
    (createConversationAndMessage dbWithChat [] true "A" (some 1) (some "yo") false).1.messages
      = [message1,
         { messageid := 2, chatid := 1, senderuserid := "A", content := "yo", createdat := 10 }] ∧
    Emit.errorMsg "You cannot create a conversation for your own product"
      ∉ (createConversationAndMessage dbWithChat [] true "A" (some 1) (some "yo") false).2 := by
  exact ⟨rfl, by decide⟩

/-- C1 (amended): an owner's `createConversationAndMessage` on their own
product fails with the self-chat `Forbidden` error, leaving chats and
messages untouched, exactly when no chat for (product, caller) exists; when
such a chat exists the call reuses it and appends the message with the owner
as sender, without any `Forbidden` error. -/
theorem ccm_owner_selfchat_forbidden_iff_no_chat
    (db : DbState) (cu : List (String × String)) (u : String) (pid : Nat) (content : String)
    (hpid : pid ≠ 0) (hct : content ≠ "")
    (hpo : productOwner db pid = some u) :
    (findChatForProductAndUser db pid u = none →
      createConversationAndMessage db cu true u (some pid) (some content) false
        = (db, [Emit.errorMsg "You cannot create a conversation for your own product"])) ∧
    (∀ chat, findChatForProductAndUser db pid u = some chat →
      (createConversationAndMessage db cu true u (some pid) (some content) false).1.chats
        = db.chats ∧
      (createConversationAndMessage db cu true u (some pid) (some content) false).1.messages
        = db.messages ++
          [{ messageid := db.nextMessageId, chatid := chat.chatid, senderuserid := u,
             content := content, createdat := db.now }] ∧
      Emit.errorMsg "You cannot create a conversation for your own product"
        ∉ (createConversationAndMessage db cu true u (some pid) (some content) false).2) := by
  have hv : (falsyNat (some pid) || falsyStr (some content)) = false := by
    simp only [falsyNat, falsyStr, Bool.or_eq_false_iff]
    exact ⟨by simpa using hpid, by simpa using hct⟩
  constructor
  · intro hfc
    simp [createConversationAndMessage, hv, hpo, hfc]
  · intro chat hfc
    have hred : createConversationAndMessage db cu true u (some pid) (some content) false
        = ccmFinish db cu u u chat.chatid chat.buyeruserid content false := by
      simp [createConversationAndMessage, hv, hpo, hfc]
    refine ⟨?_, ?_, ?_⟩
    · rw [hred, ccmFinish_state]
    · rw [hred, ccmFinish_state]
    · rw [hred]
      exact errorMsg_not_mem_ccmFinish db cu u u chat.chatid chat.buyeruserid content _

/-- C1 (witness): the amended theorem applied to user `A`, owner of product
1, on the fresh store where no chat exists. -/
theorem ccm_owner_selfchat_witness :
    (1 : Nat) ≠ 0 ∧ "hi" ≠ "" ∧ productOwner dbFresh 1 = some "A" ∧
    ((findChatForProductAndUser dbFresh 1 "A" = none →
      createConversationAndMessage dbFresh [] true "A" (some 1) (some "hi") false
        = (dbFresh, [Emit.errorMsg "You cannot create a conversation for your own product"])) ∧
    (∀ chat, findChatForProductAndUser dbFresh 1 "A" = some chat →
      (createConversationAndMessage dbFresh [] true "A" (some 1) (some "hi") false).1.chats
        = dbFresh.chats ∧
      (createConversationAndMessage dbFresh [] true "A" (some 1) (some "hi") false).1.messages
        = dbFresh.messages ++
          [{ messageid := dbFresh.nextMessageId, chatid := chat.chatid, senderuserid := "A",
             content := "hi", createdat := dbFresh.now }] ∧
      Emit.errorMsg "You cannot create a conversation for your own product"
        ∉ (createConversationAndMessage dbFresh [] true "A" (some 1) (some "hi") false).2)) :=
  ⟨by decide, by decide, rfl,
    ccm_owner_selfchat_forbidden_iff_no_chat dbFresh [] "A" 1 "hi"
      (by decide) (by decide) rfl⟩

/-- C4 (counterexample): buyer `B` (socket `sb`) opens a conversation on
`A`'s product while both users have registered sockets. The event succeeds,
but the only `conversations_listed` push targets the recipient's socket
`sa`; no push targets the sender's socket `sb` — the claim predicts pushes
for both sender and recipient. -/
theorem ccm_sync_push_recipient_only_cex :
    convPushTargets (createConversationAndMessage dbFresh [("A", "sa"), ("B", "sb")] true "B"
        (some 1) (some "hi") false).2 = ["sa"] ∧
    Emit.eventConfirmation "Event createConversationAndMessage triggered successfully"
      ∈ (createConversationAndMessage dbFresh [("A", "sa"), ("B", "sb")] true "B"
        (some 1) (some "hi") false).2 ∧
    "sb" ∉ convPushTargets (createConversationAndMessage dbFresh [("A", "sa"), ("B", "sb")]
        true "B" (some 1) (some "hi") false).2 := by
  refine ⟨rfl, by decide, by decide⟩

/-- C4 (amended): after every successful `createConversationAndMessage`, the
engine computes the recipient as whichever of buyer/owner is not the caller,
and the current revision pushes the refreshed `conversations_listed` to the
recipient's registered socket only (no push when the recipient has none, and
never one to the sender); the `src/unnamed/part_002` revision pushes to both
the recipient's and the sender's registered sockets. -/
theorem ccm_sync_push_targets
    (db : DbState) (cu : List (String × String)) (u ow : String) (pid : Nat) (content : String)
    (hpid : pid ≠ 0) (hct : content ≠ "")
    (hpo : productOwner db pid = some ow) :
    (∀ chat, findChatForProductAndUser db pid u = some chat →
      convPushTargets (createConversationAndMessage db cu true u (some pid) (some content)
          false).2
        = (mapGet cu (if u == ow then chat.buyeruserid else ow)).toList ∧
      convPushTargets (createConversationAndMessageV2 db cu true u (some pid) (some content)
          false).2
        = (mapGet cu (if u == ow then chat.buyeruserid else ow)).toList
          ++ (mapGet cu u).toList) ∧
    (findChatForProductAndUser db pid u = none → u ≠ ow →
      convPushTargets (createConversationAndMessage db cu true u (some pid) (some content)
          false).2
        = (mapGet cu ow).toList ∧
      convPushTargets (createConversationAndMessageV2 db cu true u (some pid) (some content)
          false).2
        = (mapGet cu ow).toList ++ (mapGet cu u).toList) := by
  have hv : (falsyNat (some pid) || falsyStr (some content)) = false := by
    simp only [falsyNat, falsyStr, Bool.or_eq_false_iff]
    exact ⟨by simpa using hpid, by simpa using hct⟩
  constructor
  · intro chat hfc
    have h1 : createConversationAndMessage db cu true u (some pid) (some content) false
        = ccmFinish db cu u ow chat.chatid chat.buyeruserid content false := by
      simp [createConversationAndMessage, hv, hpo, hfc]
    have h2 : createConversationAndMessageV2 db cu true u (some pid) (some content) false
        = ccmFinishBoth db cu u ow chat.chatid chat.buyeruserid content false := by
      simp [createConversationAndMessageV2, hv, hpo, hfc]
    rw [h1, h2, convPushTargets_ccmFinish, convPushTargets_ccmFinishBoth]
    exact ⟨rfl, rfl⟩
  · intro hfc hneq
    have hbeq : (u == ow) = false := by simpa using hneq
    have h1 : createConversationAndMessage db cu true u (some pid) (some content) false
        = ccmFinish
            { db with
              chats := db.chats ++
                [{ chatid := db.nextChatId, productid := pid, buyeruserid := u,
                   owneruserid := ow, createdat := db.now }],
              nextChatId := db.nextChatId + 1 }
            cu u ow db.nextChatId u content false := by
      simp [createConversationAndMessage, hv, hpo, hfc, hbeq]
    have h2 : createConversationAndMessageV2 db cu true u (some pid) (some content) false
        = ccmFinishBoth
            { db with
              chats := db.chats ++
                [{ chatid := db.nextChatId, productid := pid, buyeruserid := u,
                   owneruserid := ow, createdat := db.now }],
              nextChatId := db.nextChatId + 1 }
            cu u ow db.nextChatId u content false := by
      simp [createConversationAndMessageV2, hv, hpo, hfc, hbeq]
    rw [h1, h2, convPushTargets_ccmFinish, convPushTargets_ccmFinishBoth, hbeq]
    exact ⟨rfl, by simp⟩

/-- C4 (witness): the amended theorem applied to buyer `B` opening a
conversation on `A`'s product 1 in the fresh store. -/
theorem ccm_sync_push_targets_witness :
    (1 : Nat) ≠ 0 ∧ "hi" ≠ "" ∧ productOwner dbFresh 1 = some "A" ∧
    ((∀ chat, findChatForProductAndUser dbFresh 1 "B" = some chat →
      convPushTargets (createConversationAndMessage dbFresh [("A", "sa"), ("B", "sb")] true "B"
          (some 1) (some "hi") false).2
        = (mapGet [("A", "sa"), ("B", "sb")]
            (if "B" == "A" then chat.buyeruserid else "A")).toList ∧
      convPushTargets (createConversationAndMessageV2 dbFresh [("A", "sa"), ("B", "sb")] true
          "B" (some 1) (some "hi") false).2
        = (mapGet [("A", "sa"), ("B", "sb")]
            (if "B" == "A" then chat.buyeruserid else "A")).toList
          ++ (mapGet [("A", "sa"), ("B", "sb")] "B").toList) ∧
    (findChatForProductAndUser dbFresh 1 "B" = none → "B" ≠ "A" →
      convPushTargets (createConversationAndMessage dbFresh [("A", "sa"), ("B", "sb")] true "B"
          (some 1) (some "hi") false).2
        = (mapGet [("A", "sa"), ("B", "sb")] "A").toList ∧
      convPushTargets (createConversationAndMessageV2 dbFresh [("A", "sa"), ("B", "sb")] true
          "B" (some 1) (some "hi") false).2
        = (mapGet [("A", "sa"), ("B", "sb")] "A").toList
          ++ (mapGet [("A", "sa"), ("B", "sb")] "B").toList)) :=
  ⟨by decide, by decide, rfl,
    ccm_sync_push_targets dbFresh [("A", "sa"), ("B", "sb")] "B" "A" 1 "hi"
      (by decide) (by decide) rfl⟩

/-- C6: a caller who is neither the buyer nor the owner of any chat with the
given id has `sendMessage` rejected with the single collapsed
`'Conversation not found or unauthorized'` error — the same error a
nonexistent chat id produces, since the hypothesis is vacuously true then —
and the state comes back unchanged with no other emission (no message row,
no broadcast, no push). -/
theorem sendMessage_nonparticipant_rejected
    (db : DbState) (cu : List (String × String)) (d : String) (cid : Nat) (content : String)
    (hcid : cid ≠ 0) (hct : content ≠ "")
    (hnp : ∀ c ∈ db.chats, c.chatid = cid → d ≠ c.buyeruserid ∧ d ≠ c.owneruserid) :
    sendMessage db cu d (some cid) (some content) false
      = (db, [Emit.errorMsg "Conversation not found or unauthorized"]) := by
  have hv : (falsyNat (some cid) || falsyStr (some content)) = false := by
    simp only [falsyNat, falsyStr, Bool.or_eq_false_iff]
    exact ⟨by simpa using hcid, by simpa using hct⟩
  have hfc : findChatByIdForUser db cid d = none := by
    unfold findChatByIdForUser
    rw [List.head?_eq_none_iff, List.filter_eq_nil_iff]
    intro c hc hp
    simp only [Bool.and_eq_true, Bool.or_eq_true, beq_iff_eq] at hp
    obtain ⟨hc1, hc2⟩ := hp
    obtain ⟨hb, ho⟩ := hnp c hc hc1
    cases hc2 with
    | inl h => exact hb h.symm
    | inr h => exact ho h.symm
  simp [sendMessage, hv, hfc]

/-- C6 (witness): the theorem applied to third party `D` against chat 1
(participants `B` and `A`). -/
theorem sendMessage_nonparticipant_witness :
    (1 : Nat) ≠ 0 ∧ "hey" ≠ "" ∧
    (∀ c ∈ dbWithChat.chats, c.chatid = 1 → "D" ≠ c.buyeruserid ∧ "D" ≠ c.owneruserid) ∧
    sendMessage dbWithChat [] "D" (some 1) (some "hey") false
      = (dbWithChat, [Emit.errorMsg "Conversation not found or unauthorized"]) :=
  ⟨by decide, by decide, by decide,
    sendMessage_nonparticipant_rejected dbWithChat [] "D" 1 "hey"
      (by decide) (by decide) (by decide)⟩

/-- C7: `createConversationAndMessage` is idempotent at the chat level. If a
first faultless invocation by `u` for `pid` runs a branch that succeeds
(either a chat already exists for the caller, or none does and the caller is
not the product owner), then a second invocation with the same caller and
product uses the same chat identifier (read off the `message_created`
unicast of each run) and inserts no further chat row. -/
theorem ccm_chat_idempotent
    (db db1 db2 : DbState) (out1 out2 : List Emit) (cu : List (String × String))
    (u ow : String) (pid : Nat) (content1 content2 : String)
    (hpid : pid ≠ 0) (hc1 : content1 ≠ "") (hc2 : content2 ≠ "")
    (hpo : productOwner db pid = some ow)
    (hbranch : findChatForProductAndUser db pid u ≠ none ∨ u ≠ ow)
    (h1 : createConversationAndMessage db cu true u (some pid) (some content1) false
      = (db1, out1))
    (h2 : createConversationAndMessage db1 cu true u (some pid) (some content2) false
      = (db2, out2)) :
    db2.chats = db1.chats ∧ ∃ c, usedChatId out1 = some c ∧ usedChatId out2 = some c := by
  have hv1 : (falsyNat (some pid) || falsyStr (some content1)) = false := by
    simp only [falsyNat, falsyStr, Bool.or_eq_false_iff]
    exact ⟨by simpa using hpid, by simpa using hc1⟩
  have hv2 : (falsyNat (some pid) || falsyStr (some content2)) = false := by
    simp only [falsyNat, falsyStr, Bool.or_eq_false_iff]
    exact ⟨by simpa using hpid, by simpa using hc2⟩
  cases hfc : findChatForProductAndUser db pid u with
  | some chat =>
    have hred1 : createConversationAndMessage db cu true u (some pid) (some content1) false
        = ccmFinish db cu u ow chat.chatid chat.buyeruserid content1 false := by
      simp [createConversationAndMessage, hv1, hpo, hfc]
    rw [hred1] at h1
    have hfst : (ccmFinish db cu u ow chat.chatid chat.buyeruserid content1 false).1 = db1 := by
      rw [h1]
    have hsnd : (ccmFinish db cu u ow chat.chatid chat.buyeruserid content1 false).2 = out1 := by
      rw [h1]
    rw [ccmFinish_state] at hfst
    have hpo1 : productOwner db1 pid = some ow := by rw [← hfst]; exact hpo
    have hfc1 : findChatForProductAndUser db1 pid u = some chat := by rw [← hfst]; exact hfc
    have hred2 : createConversationAndMessage db1 cu true u (some pid) (some content2) false
        = ccmFinish db1 cu u ow chat.chatid chat.buyeruserid content2 false := by
      simp [createConversationAndMessage, hv2, hpo1, hfc1]
    rw [hred2] at h2
    have hfst2 : (ccmFinish db1 cu u ow chat.chatid chat.buyeruserid content2 false).1 = db2 := by
      rw [h2]
    have hsnd2 : (ccmFinish db1 cu u ow chat.chatid chat.buyeruserid content2 false).2 = out2 := by
      rw [h2]
    rw [ccmFinish_state] at hfst2
    refine ⟨by rw [← hfst2], chat.chatid, ?_, ?_⟩
    · rw [← hsnd]; exact ccmFinish_usedChatId db cu u ow chat.chatid chat.buyeruserid content1
    · rw [← hsnd2]; exact ccmFinish_usedChatId db1 cu u ow chat.chatid chat.buyeruserid content2
  | none =>
    have hneq : u ≠ ow := by
      cases hbranch with
      | inl h => exact absurd hfc h
      | inr h => exact h
    have hbeq : (u == ow) = false := by simpa using hneq
    have hred1 : createConversationAndMessage db cu true u (some pid) (some content1) false
        = ccmFinish
            { db with
              chats := db.chats ++
                [{ chatid := db.nextChatId, productid := pid, buyeruserid := u,
                   owneruserid := ow, createdat := db.now }],
              nextChatId := db.nextChatId + 1 }
            cu u ow db.nextChatId u content1 false := by
      simp [createConversationAndMessage, hv1, hpo, hfc, hbeq]
    rw [hred1] at h1
    have hfst : (ccmFinish
        { db with
          chats := db.chats ++
            [{ chatid := db.nextChatId, productid := pid, buyeruserid := u,
               owneruserid := ow, createdat := db.now }],
          nextChatId := db.nextChatId + 1 }
        cu u ow db.nextChatId u content1 false).1 = db1 := by
      rw [h1]
    have hsnd : (ccmFinish
        { db with
          chats := db.chats ++
            [{ chatid := db.nextChatId, productid := pid, buyeruserid := u,
               owneruserid := ow, createdat := db.now }],
          nextChatId := db.nextChatId + 1 }
        cu u ow db.nextChatId u content1 false).2 = out1 := by
      rw [h1]
    rw [ccmFinish_state] at hfst
    have hpo1 : productOwner db1 pid = some ow := by rw [← hfst]; exact hpo
    have hnil : db.chats.filter
        (fun c => c.productid == pid && (c.buyeruserid == u || c.owneruserid == u)) = [] := by
      exact List.head?_eq_none_iff.mp (by simpa [findChatForProductAndUser] using hfc)
    have hfc1 : findChatForProductAndUser db1 pid u
        = some { chatid := db.nextChatId, productid := pid, buyeruserid := u,
                 owneruserid := ow, createdat := db.now } := by
      rw [← hfst]
      unfold findChatForProductAndUser
      show ((db.chats ++
        [({ chatid := db.nextChatId, productid := pid, buyeruserid := u,
            owneruserid := ow, createdat := db.now } : Chat)]).filter _).head? = _
      rw [List.filter_append, hnil]
      simp
    have hred2 : createConversationAndMessage db1 cu true u (some pid) (some content2) false
        = ccmFinish db1 cu u ow db.nextChatId u content2 false := by
      simp [createConversationAndMessage, hv2, hpo1, hfc1]
    rw [hred2] at h2
    have hfst2 : (ccmFinish db1 cu u ow db.nextChatId u content2 false).1 = db2 := by
      rw [h2]
    have hsnd2 : (ccmFinish db1 cu u ow db.nextChatId u content2 false).2 = out2 := by
      rw [h2]
    rw [ccmFinish_state] at hfst2
    refine ⟨by rw [← hfst2], db.nextChatId, ?_, ?_⟩
    · rw [← hsnd]
      exact ccmFinish_usedChatId _ cu u ow db.nextChatId u content1
    · rw [← hsnd2]; exact ccmFinish_usedChatId db1 cu u ow db.nextChatId u content2

/-- C7 (witness): the theorem applied to buyer `B` invoking the handler
twice on product 1 starting from the fresh store. -/
theorem ccm_chat_idempotent_witness :
    (1 : Nat) ≠ 0 ∧ "hi" ≠ "" ∧ "again" ≠ "" ∧ productOwner dbFresh 1 = some "A" ∧
    ((createConversationAndMessage
        (createConversationAndMessage dbFresh [] true "B" (some 1) (some "hi") false).1
        [] true "B" (some 1) (some "again") false).1.chats
      = (createConversationAndMessage dbFresh [] true "B" (some 1) (some "hi") false).1.chats ∧
     ∃ c,
       usedChatId
         (createConversationAndMessage dbFresh [] true "B" (some 1) (some "hi") false).2
         = some c ∧
       usedChatId
         (createConversationAndMessage
           (createConversationAndMessage dbFresh [] true "B" (some 1) (some "hi") false).1
           [] true "B" (some 1) (some "again") false).2
         = some c) :=
  ⟨by decide, by decide, by decide, rfl,
    ccm_chat_idempotent dbFresh _ _ _ _ [] "B" "A" 1 "hi" "again"
      (by decide) (by decide) (by decide) rfl (Or.inr (by decide))
      Prod.mk.eta.symm Prod.mk.eta.symm⟩

/-- Every `message_created` delivery of an emission list whose broadcast
payloads all equal `pf` and whose unicast payloads all equal `pt` either
carries `pf` and goes to a socket other than the sender's, or carries `pt`
and goes to the sender's socket. -/
theorem messageDeliveries_cases (conns : List Conn) (s : String) (emits : List Emit)
    (pf pt : MessagePayload)
    (hb : ∀ e ∈ emits,
      (∀ room p, e = Emit.messageCreatedBroadcast room p → p = pf) ∧
      (∀ p, e = Emit.messageCreatedSelf p → p = pt)) :
    ∀ t ∈ messageDeliveries conns s emits,
      (t.2.2 = pf ∧ t.1 ≠ s) ∨ (t.2.2 = pt ∧ t.1 = s) := by
  intro t ht
  unfold messageDeliveries at ht
  rw [List.mem_flatten] at ht
  obtain ⟨l, hl, htl⟩ := ht
  rw [List.mem_map] at hl
  obtain ⟨e, he, rfl⟩ := hl
  obtain ⟨hbr, hse⟩ := hb e he
  cases e with
  | messageCreatedBroadcast room p =>
    have hp := hbr room p rfl
    subst hp
    unfold emitDeliveries at htl
    rw [List.mem_map] at htl
    obtain ⟨c, hc, rfl⟩ := htl
    rw [List.mem_filter] at hc
    obtain ⟨-, hcp⟩ := hc
    rw [Bool.and_eq_true] at hcp
    left
    refine ⟨rfl, ?_⟩
    have hns : (c.sockid == s) = false := by
      have := hcp.2
      rwa [Bool.not_eq_true'] at this
    exact beq_eq_false_iff_ne.mp hns
  | messageCreatedSelf p =>
    have hp := hse p rfl
    subst hp
    unfold emitDeliveries at htl
    cases hfind : conns.find? (fun c => c.sockid == s) with
    | none => rw [hfind] at htl; simp at htl
    | some c =>
      rw [hfind] at htl
      rw [List.mem_singleton] at htl
      subst htl
      right
      refine ⟨rfl, ?_⟩
      have := List.find?_some hfind
      simpa using this
  | errorMsg m => simp [emitDeliveries] at htl
  | joinMessagesListed a b c d => simp [emitDeliveries] at htl
  | v1MessagesListed a b => simp [emitDeliveries] at htl
  | listMessagesListed a b => simp [emitDeliveries] at htl
  | conversationsListed a b => simp [emitDeliveries] at htl
  | conversationsListedSelf a => simp [emitDeliveries] at htl
  | eventConfirmation m => simp [emitDeliveries] at htl
  | listConversationsEvt => simp [emitDeliveries] at htl

/-- In a successful `sendMessage` run, the broadcast payload is the
`isCurrentUser := false` record and the unicast payload the
`isCurrentUser := true` record, both with the caller as sender. -/
theorem sendMessage_success_emits (db : DbState) (cu : List (String × String))
    (u : String) (cid : Nat) (content : String) (chat : Chat)
    (hcid : cid ≠ 0) (hct : content ≠ "")
    (hfc : findChatByIdForUser db cid u = some chat) :
    ∀ e ∈ (sendMessage db cu u (some cid) (some content) false).2,
      (∀ room p, e = Emit.messageCreatedBroadcast room p →
        p = { chatId := cid, senderUserId := u, content := content, createdAt := db.now,
              isCurrentUser := false }) ∧
      (∀ p, e = Emit.messageCreatedSelf p →
        p = { chatId := cid, senderUserId := u, content := content, createdAt := db.now,
              isCurrentUser := true }) := by
  have hv : (falsyNat (some cid) || falsyStr (some content)) = false := by
    simp only [falsyNat, falsyStr, Bool.or_eq_false_iff]
    exact ⟨by simpa using hcid, by simpa using hct⟩
  intro e he
  cases hre : mapGet cu (if u = chat.owneruserid then chat.buyeruserid else chat.owneruserid) with
  | none =>
    rw [show (sendMessage db cu u (some cid) (some content) false).2
        = [Emit.messageCreatedBroadcast cid
             { chatId := cid, senderUserId := u, content := content, createdAt := db.now,
               isCurrentUser := false },
           Emit.messageCreatedSelf
             { chatId := cid, senderUserId := u, content := content, createdAt := db.now,
               isCurrentUser := true },
           Emit.eventConfirmation "Event sendMessage triggered successfully",
           Emit.listConversationsEvt] from by simp [sendMessage, hv, hfc, hre]] at he
    simp only [List.mem_cons, List.mem_singleton] at he
    rcases he with rfl | rfl | rfl | rfl | he
    · exact ⟨fun room p h => by injection h with h1 h2; exact h2.symm,
        fun p h => by simp at h⟩
    · exact ⟨fun room p h => by simp at h,
        fun p h => by injection h with h1; exact h1.symm⟩
    · exact ⟨fun room p h => by simp at h, fun p h => by simp at h⟩
    · exact ⟨fun room p h => by simp at h, fun p h => by simp at h⟩
    · simp at he
  | some sid =>
    rw [show (sendMessage db cu u (some cid) (some content) false).2
        = [Emit.messageCreatedBroadcast cid
             { chatId := cid, senderUserId := u, content := content, createdAt := db.now,
               isCurrentUser := false },
           Emit.messageCreatedSelf
             { chatId := cid, senderUserId := u, content := content, createdAt := db.now,
               isCurrentUser := true },
           Emit.conversationsListed sid
             (listConversationsQuery
               { db with
                 messages := db.messages ++
                   [{ messageid := db.nextMessageId, chatid := cid, senderuserid := u,
                      content := content, createdat := db.now }],
                 nextMessageId := db.nextMessageId + 1 }
               (if u == chat.owneruserid then chat.buyeruserid else chat.owneruserid)),
           Emit.eventConfirmation "Event sendMessage triggered successfully",
           Emit.listConversationsEvt] from by simp [sendMessage, hv, hfc, hre]] at he
    simp only [List.mem_cons, List.mem_singleton] at he
    rcases he with rfl | rfl | rfl | rfl | rfl | he
    · exact ⟨fun room p h => by injection h with h1 h2; exact h2.symm,
        fun p h => by simp at h⟩
    · exact ⟨fun room p h => by simp at h,
        fun p h => by injection h with h1; exact h1.symm⟩
    · exact ⟨fun room p h => by simp at h, fun p h => by simp at h⟩
    · exact ⟨fun room p h => by simp at h, fun p h => by simp at h⟩
    · exact ⟨fun room p h => by simp at h, fun p h => by simp at h⟩
    · simp at he

/-- In the successful tail of `createConversationAndMessage` (both branches
funnel into it), the broadcast payload is the `isCurrentUser := false`
record and the unicast payload the `isCurrentUser := true` record, both
with the caller as sender. -/
theorem ccmFinish_emits_payloads (db : DbState) (cu : List (String × String))
    (u ow : String) (cid : Nat) (buy content : String) :
    ∀ e ∈ (ccmFinish db cu u ow cid buy content false).2,
      (∀ room p, e = Emit.messageCreatedBroadcast room p →
        p = { chatId := cid, senderUserId := u, content := content, createdAt := db.now,
              isCurrentUser := false }) ∧
      (∀ p, e = Emit.messageCreatedSelf p →
        p = { chatId := cid, senderUserId := u, content := content, createdAt := db.now,
              isCurrentUser := true }) := by
  intro e he
  cases hre : mapGet cu (if u = ow then buy else ow) with
  | none =>
    rw [show (ccmFinish db cu u ow cid buy content false).2
        = [Emit.messageCreatedBroadcast cid
             { chatId := cid, senderUserId := u, content := content, createdAt := db.now,
               isCurrentUser := false },
           Emit.messageCreatedSelf
             { chatId := cid, senderUserId := u, content := content, createdAt := db.now,
               isCurrentUser := true },
           Emit.eventConfirmation "Event createConversationAndMessage triggered successfully",
           Emit.listConversationsEvt] from by simp [ccmFinish, hre]] at he
    simp only [List.mem_cons, List.mem_singleton] at he
    rcases he with rfl | rfl | rfl | rfl | he
    · exact ⟨fun room p h => by injection h with h1 h2; exact h2.symm,
        fun p h => by simp at h⟩
    · exact ⟨fun room p h => by simp at h,
        fun p h => by injection h with h1; exact h1.symm⟩
    · exact ⟨fun room p h => by simp at h, fun p h => by simp at h⟩
    · exact ⟨fun room p h => by simp at h, fun p h => by simp at h⟩
    · simp at he
  | some sid =>
    rw [show (ccmFinish db cu u ow cid buy content false).2
        = [Emit.messageCreatedBroadcast cid
             { chatId := cid, senderUserId := u, content := content, createdAt := db.now,
               isCurrentUser := false },
           Emit.messageCreatedSelf
             { chatId := cid, senderUserId := u, content := content, createdAt := db.now,
               isCurrentUser := true },
           Emit.conversationsListed sid
             (listConversationsQuery
               { db with
                 messages := db.messages ++
                   [{ messageid := db.nextMessageId, chatid := cid, senderuserid := u,
                      content := content, createdat := db.now }],
                 nextMessageId := db.nextMessageId + 1 }
               (if u = ow then buy else ow)),
           Emit.eventConfirmation "Event createConversationAndMessage triggered successfully",
           Emit.listConversationsEvt] from by simp [ccmFinish, hre]] at he
    simp only [List.mem_cons, List.mem_singleton] at he
    rcases he with rfl | rfl | rfl | rfl | rfl | he
    · exact ⟨fun room p h => by injection h with h1 h2; exact h2.symm,
        fun p h => by simp at h⟩
    · exact ⟨fun room p h => by simp at h,
        fun p h => by injection h with h1; exact h1.symm⟩
    · exact ⟨fun room p h => by simp at h, fun p h => by simp at h⟩
    · exact ⟨fun room p h => by simp at h, fun p h => by simp at h⟩
    · exact ⟨fun room p h => by simp at h, fun p h => by simp at h⟩
    · simp at he

/-- C3 (counterexample): user `B` sends into chat 1 from socket `s1` while
also holding socket `s2` in the room. The room broadcast delivers to `s2` —
a connection whose viewer is the sender `B` — the payload flagged
`isCurrentUser := false`, although the payload's sender id equals the
viewer's user id; the claim requires the flag to be true there. -/
theorem isCurrentUser_broadcast_second_connection :
    ("s2", "B",
      ({ chatId := 1, senderUserId := "B", content := "yo", createdAt := 10,
         isCurrentUser := false } : MessagePayload))
      ∈ messageDeliveries connsTwoForB "s1"
          (sendMessage dbWithChat [("A", "s3")] "B" (some 1) (some "yo") false).2 := by
  decide

/-- C3 (amended): the `isCurrentUser` flag equals
`message.senderId == viewer.userId` on the `joinConversation` and
`listMessages` paths; on both send paths — `sendMessage` and
`createConversationAndMessage` — the unicast copy to the invoking socket is
flagged true and every room-broadcast copy is flagged false, so the
equivalence holds for every delivery except those reaching another
connection of the sender, which receive `false` although sender and viewer
coincide. -/
theorem isCurrentUser_per_path
    (db : DbState) (conns : List Conn) (cu : List (String × String)) (rooms : List Nat)
    (u s : String) (cid pid : Nat) (content : String) (d : Nat)
    (hcid : cid ≠ 0) (hpid : pid ≠ 0) (hct : content ≠ "") :
    (∀ cid' ms i o,
      Emit.joinMessagesListed cid' ms i o ∈ (joinConversation db rooms true u cid).2 →
        ms = (messagesForChat db cid).map (joinFmt u i o)) ∧
    (∀ i o m, (joinFmt u i o m).isCurrentUser = (m.senderuserid == u)) ∧
    (∀ cid' ms, Emit.listMessagesListed cid' ms ∈ listMessages db true u cid d →
        ∀ fm ∈ ms, fm.isCurrentUser = (fm.senderUserId == u)) ∧
    (∀ t ∈ messageDeliveries conns s (sendMessage db cu u (some cid) (some content) false).2,
        t.2.2.senderUserId = u ∧
        (t.1 = s → t.2.2.isCurrentUser = true) ∧
        (t.1 ≠ s → t.2.2.isCurrentUser = false)) ∧
    (∀ t ∈ messageDeliveries conns s
        (createConversationAndMessage db cu true u (some pid) (some content) false).2,
        t.2.2.senderUserId = u ∧
        (t.1 = s → t.2.2.isCurrentUser = true) ∧
        (t.1 ≠ s → t.2.2.isCurrentUser = false)) := by
  refine ⟨?_, ?_, ?_, ?_, ?_⟩
  · intro cid' ms i o hmem
    cases hcd : chatDetails db cid with
    | none => simp [joinConversation, hcd] at hmem
    | some trip =>
      obtain ⟨chat, bImg, oImg⟩ := trip
      cases hlen : (messagesForChat db cid).length == 0 with
      | true => simp [joinConversation, hcd, hlen] at hmem
      | false =>
        simp [joinConversation, hcd, hlen] at hmem
        obtain ⟨-, hms, hi, ho⟩ := hmem
        subst hi
        subst ho
        exact hms
  · intro i o m
    rfl
  · intro cid' ms hmem
    simp [listMessages] at hmem
    obtain ⟨-, hms⟩ := hmem
    subst hms
    intro fm hfm
    rw [List.mem_map] at hfm
    obtain ⟨r, -, rfl⟩ := hfm
    rfl
  · intro t ht
    cases hfc : findChatByIdForUser db cid u with
    | none =>
      have hv : (falsyNat (some cid) || falsyStr (some content)) = false := by
        simp only [falsyNat, falsyStr, Bool.or_eq_false_iff]
        exact ⟨by simpa using hcid, by simpa using hct⟩
      rw [show (sendMessage db cu u (some cid) (some content) false).2
          = [Emit.errorMsg "Conversation not found or unauthorized"] from by
            simp [sendMessage, hv, hfc]] at ht
      simp [messageDeliveries, emitDeliveries] at ht
    | some chat =>
      have hcases := messageDeliveries_cases conns s
        (sendMessage db cu u (some cid) (some content) false).2
        { chatId := cid, senderUserId := u, content := content, createdAt := db.now,
          isCurrentUser := false }
        { chatId := cid, senderUserId := u, content := content, createdAt := db.now,
          isCurrentUser := true }
        (sendMessage_success_emits db cu u cid content chat hcid hct hfc) t ht
      rcases hcases with ⟨hp, hns⟩ | ⟨hp, hs⟩
      · rw [hp]
        exact ⟨rfl, fun h => absurd h hns, fun _ => rfl⟩
      · rw [hp]
        exact ⟨rfl, fun _ => rfl, fun h => absurd hs h⟩
  · have hv : (falsyNat (some pid) || falsyStr (some content)) = false := by
      simp only [falsyNat, falsyStr, Bool.or_eq_false_iff]
      exact ⟨by simpa using hpid, by simpa using hct⟩
    intro t ht
    cases hpo : productOwner db pid with
    | none =>
      rw [show (createConversationAndMessage db cu true u (some pid) (some content) false).2
          = [Emit.errorMsg "Product not found"] from by
            simp [createConversationAndMessage, hv, hpo]] at ht
      simp [messageDeliveries, emitDeliveries] at ht
    | some ow =>
      cases hfc : findChatForProductAndUser db pid u with
      | some chat =>
        have hred : createConversationAndMessage db cu true u (some pid) (some content) false
            = ccmFinish db cu u ow chat.chatid chat.buyeruserid content false := by
          simp [createConversationAndMessage, hv, hpo, hfc]
        rw [hred] at ht
        have hcases := messageDeliveries_cases conns s
          (ccmFinish db cu u ow chat.chatid chat.buyeruserid content false).2 _ _
          (ccmFinish_emits_payloads db cu u ow chat.chatid chat.buyeruserid content) t ht
        rcases hcases with ⟨hp, hns⟩ | ⟨hp, hs⟩
        · rw [hp]
          exact ⟨rfl, fun h => absurd h hns, fun _ => rfl⟩
        · rw [hp]
          exact ⟨rfl, fun _ => rfl, fun h => absurd hs h⟩
      | none =>
        cases hub : u == ow with
        | true =>
          rw [show (createConversationAndMessage db cu true u (some pid) (some content)
              false).2
              = [Emit.errorMsg "You cannot create a conversation for your own product"] from by
                simp [createConversationAndMessage, hv, hpo, hfc, hub]] at ht
          simp [messageDeliveries, emitDeliveries] at ht
        | false =>
          have hred : createConversationAndMessage db cu true u (some pid) (some content) false
              = ccmFinish
                  { db with
                    chats := db.chats ++
                      [{ chatid := db.nextChatId, productid := pid, buyeruserid := u,
                         owneruserid := ow, createdat := db.now }],
                    nextChatId := db.nextChatId + 1 }
                  cu u ow db.nextChatId u content false := by
            simp [createConversationAndMessage, hv, hpo, hfc, hub]
          rw [hred] at ht
          have hcases := messageDeliveries_cases conns s
            (ccmFinish
              { db with
                chats := db.chats ++
                  [{ chatid := db.nextChatId, productid := pid, buyeruserid := u,
                     owneruserid := ow, createdat := db.now }],
                nextChatId := db.nextChatId + 1 }
              cu u ow db.nextChatId u content false).2 _ _
            (ccmFinish_emits_payloads
              { db with
                chats := db.chats ++
                  [{ chatid := db.nextChatId, productid := pid, buyeruserid := u,
                     owneruserid := ow, createdat := db.now }],
                nextChatId := db.nextChatId + 1 }
              cu u ow db.nextChatId u content) t ht
          rcases hcases with ⟨hp, hns⟩ | ⟨hp, hs⟩
          · rw [hp]
            exact ⟨rfl, fun h => absurd h hns, fun _ => rfl⟩
          · rw [hp]
            exact ⟨rfl, fun _ => rfl, fun h => absurd hs h⟩

/-- C3 (witness): the amended theorem applied to sender `B` on socket `s1`,
with `B` holding a second socket `s2` in the room of chat 1, for both the
`sendMessage` and the `createConversationAndMessage` delivery paths. -/
theorem isCurrentUser_per_path_witness :
    (1 : Nat) ≠ 0 ∧ "yo" ≠ "" ∧
    ((∀ cid' ms i o,
      Emit.joinMessagesListed cid' ms i o
          ∈ (joinConversation dbWithChat [] true "B" 1).2 →
        ms = (messagesForChat dbWithChat 1).map (joinFmt "B" i o)) ∧
    (∀ i o m, (joinFmt "B" i o m).isCurrentUser = (m.senderuserid == "B")) ∧
    (∀ cid' ms, Emit.listMessagesListed cid' ms ∈ listMessages dbWithChat true "B" 1 0 →
        ∀ fm ∈ ms, fm.isCurrentUser = (fm.senderUserId == "B")) ∧
    (∀ t ∈ messageDeliveries connsTwoForB "s1"
        (sendMessage dbWithChat [("A", "s3")] "B" (some 1) (some "yo") false).2,
        t.2.2.senderUserId = "B" ∧
        (t.1 = "s1" → t.2.2.isCurrentUser = true) ∧
        (t.1 ≠ "s1" → t.2.2.isCurrentUser = false)) ∧
    (∀ t ∈ messageDeliveries connsTwoForB "s1"
        (createConversationAndMessage dbWithChat [("A", "s3")] true "B" (some 1) (some "yo")
          false).2,
        t.2.2.senderUserId = "B" ∧
        (t.1 = "s1" → t.2.2.isCurrentUser = true) ∧
        (t.1 ≠ "s1" → t.2.2.isCurrentUser = false))) :=
  ⟨by decide, by decide,
    isCurrentUser_per_path dbWithChat connsTwoForB [("A", "s3")] [] "B" "s1" 1 1 "yo" 0
      (by decide) (by decide) (by decide)⟩

/-- C9: both message-listing paths order their output ascending by creation
time (`ORDER BY createdat ASC`): any message list carried by a
`messages_listed` emission of `joinConversation` or `listMessages` is
pairwise non-decreasing in `createdAt`. -/
theorem listed_messages_sorted
    (db : DbState) (rooms : List Nat) (u : String) (cid : Nat) (d : Nat) :
    (∀ cid' ms i o,
      Emit.joinMessagesListed cid' ms i o ∈ (joinConversation db rooms true u cid).2 →
        List.Pairwise (fun a b => a.createdAt ≤ b.createdAt) ms) ∧
    (∀ cid' ms, Emit.listMessagesListed cid' ms ∈ listMessages db true u cid d →
        List.Pairwise (fun a b => a.createdAt ≤ b.createdAt) ms) := by
  have hsort : List.Sorted msgLe (messagesForChat db cid) :=
    List.sorted_insertionSort msgLe _
  have hsort2 : List.Sorted rowLe (listMessagesRows db cid d) :=
    List.sorted_insertionSort rowLe _
  constructor
  · intro cid' ms i o hmem
    cases hcd : chatDetails db cid with
    | none => simp [joinConversation, hcd] at hmem
    | some trip =>
      obtain ⟨chat, bImg, oImg⟩ := trip
      cases hlen : (messagesForChat db cid).length == 0 with
      | true => simp [joinConversation, hcd, hlen] at hmem
      | false =>
        simp [joinConversation, hcd, hlen] at hmem
        obtain ⟨-, hms, -, -⟩ := hmem
        subst hms
        exact List.pairwise_map.mpr (hsort.imp (fun hab => hab))
  · intro cid' ms hmem
    simp [listMessages] at hmem
    obtain ⟨-, hms⟩ := hmem
    subst hms
    exact List.pairwise_map.mpr (hsort2.imp (fun hab => hab))

/-- C9 (witness): the sortedness theorem applied to the concrete
`joinConversation` reply for chat 1. -/
theorem listed_messages_sorted_witness :
    List.Pairwise (fun a b => a.createdAt ≤ b.createdAt)
      [({ messageId := 1, isCurrentUser := true, content := "hi", createdAt := 5,
          senderImage := "imgB" } : JoinedMessage)] :=
  (listed_messages_sorted dbWithChat [] "B" 1 0).1 1
    [{ messageId := 1, isCurrentUser := true, content := "hi", createdAt := 5,
       senderImage := "imgB" }] "imgB" "imgA" (by decide)

/-- C10: `createConversationAndMessage` is not atomic across its two
inserts. When the message insert fails after a new chat row was created, the
handler emits only the `Internal server error` event, the new chat row stays
persisted with zero messages (no compensating rollback), and a subsequent
`joinConversation` on that chat reports the
`'No messages found for this chat'` condition. -/
theorem ccm_not_atomic
    (db : DbState) (cu : List (String × String)) (rooms : List Nat)
    (u ow : String) (pid : Nat) (content bImg oImg : String)
    (hpid : pid ≠ 0) (hct : content ≠ "")
    (hpo : productOwner db pid = some ow)
    (hfc : findChatForProductAndUser db pid u = none)
    (hneq : u ≠ ow)
    (hbuyer : userImage db u = some bImg)
    (howner : userImage db ow = some oImg)
    (hfresh : ∀ c ∈ db.chats, c.chatid ≠ db.nextChatId)
    (hnomsg : ∀ m ∈ db.messages, m.chatid ≠ db.nextChatId) :
    (createConversationAndMessage db cu true u (some pid) (some content) true).2
      = [Emit.errorMsg "Internal server error"] ∧
    (createConversationAndMessage db cu true u (some pid) (some content) true).1
      = { db with
          chats := db.chats ++
            [{ chatid := db.nextChatId, productid := pid, buyeruserid := u,
               owneruserid := ow, createdat := db.now }],
          nextChatId := db.nextChatId + 1 } ∧
    (joinConversation
        (createConversationAndMessage db cu true u (some pid) (some content) true).1
        rooms true u db.nextChatId).2
      = [Emit.errorMsg "No messages found for this chat"] := by
  have hv : (falsyNat (some pid) || falsyStr (some content)) = false := by
    simp only [falsyNat, falsyStr, Bool.or_eq_false_iff]
    exact ⟨by simpa using hpid, by simpa using hct⟩
  have hbeq : (u == ow) = false := by simpa using hneq
  have hred : createConversationAndMessage db cu true u (some pid) (some content) true
      = ({ db with
           chats := db.chats ++
             [{ chatid := db.nextChatId, productid := pid, buyeruserid := u,
                owneruserid := ow, createdat := db.now }],
           nextChatId := db.nextChatId + 1 },
         [Emit.errorMsg "Internal server error"]) := by
    simp [createConversationAndMessage, ccmFinish, hv, hpo, hfc, hbeq]
  refine ⟨by rw [hred], by rw [hred], ?_⟩
  rw [hred]
  have hchats : ({ db with
      chats := db.chats ++
        [{ chatid := db.nextChatId, productid := pid, buyeruserid := u,
           owneruserid := ow, createdat := db.now }],
      nextChatId := db.nextChatId + 1 } : DbState).chats.filter
        (fun c => c.chatid == db.nextChatId)
      = [{ chatid := db.nextChatId, productid := pid, buyeruserid := u,
           owneruserid := ow, createdat := db.now }] := by
    show (db.chats ++
      [({ chatid := db.nextChatId, productid := pid, buyeruserid := u,
          owneruserid := ow, createdat := db.now } : Chat)]).filter _ = _
    rw [List.filter_append]
    rw [show db.chats.filter (fun c => c.chatid == db.nextChatId) = [] from by
      rw [List.filter_eq_nil_iff]; intro c hc; simp [hfresh c hc]]
    simp
  have hb' : userImage
      { db with
        chats := db.chats ++
          [{ chatid := db.nextChatId, productid := pid, buyeruserid := u,
             owneruserid := ow, createdat := db.now }],
        nextChatId := db.nextChatId + 1 } u = some bImg := hbuyer
  have ho' : userImage
      { db with
        chats := db.chats ++
          [{ chatid := db.nextChatId, productid := pid, buyeruserid := u,
             owneruserid := ow, createdat := db.now }],
        nextChatId := db.nextChatId + 1 } ow = some oImg := howner
  have hcd : chatDetails
      { db with
        chats := db.chats ++
          [{ chatid := db.nextChatId, productid := pid, buyeruserid := u,
             owneruserid := ow, createdat := db.now }],
        nextChatId := db.nextChatId + 1 } db.nextChatId
      = some ({ chatid := db.nextChatId, productid := pid, buyeruserid := u,
                owneruserid := ow, createdat := db.now }, bImg, oImg) := by
    unfold chatDetails
    rw [hchats]
    simp [hb', ho']
  have hmsgs : messagesForChat
      { db with
        chats := db.chats ++
          [{ chatid := db.nextChatId, productid := pid, buyeruserid := u,
             owneruserid := ow, createdat := db.now }],
        nextChatId := db.nextChatId + 1 } db.nextChatId = [] := by
    unfold messagesForChat
    show List.insertionSort msgLe
      (db.messages.filter (fun m => m.chatid == db.nextChatId)) = []
    rw [show db.messages.filter (fun m => m.chatid == db.nextChatId) = [] from by
      rw [List.filter_eq_nil_iff]; intro m hm; simp [hnomsg m hm]]
    rfl
  simp [joinConversation, hcd, hmsgs]

/-- C10 (witness): the non-atomicity theorem applied to buyer `B` opening a
conversation on product 1 in the fresh store with the message insert
failing. -/
theorem ccm_not_atomic_witness :
    (1 : Nat) ≠ 0 ∧ "hi" ≠ "" ∧ productOwner dbFresh 1 = some "A" ∧
    findChatForProductAndUser dbFresh 1 "B" = none ∧ "B" ≠ "A" ∧
    ((createConversationAndMessage dbFresh [] true "B" (some 1) (some "hi") true).2
      = [Emit.errorMsg "Internal server error"] ∧
    (createConversationAndMessage dbFresh [] true "B" (some 1) (some "hi") true).1
      = { dbFresh with
          chats := dbFresh.chats ++
            [{ chatid := dbFresh.nextChatId, productid := 1, buyeruserid := "B",
               owneruserid := "A", createdat := dbFresh.now }],
          nextChatId := dbFresh.nextChatId + 1 } ∧
    (joinConversation
        (createConversationAndMessage dbFresh [] true "B" (some 1) (some "hi") true).1
        [] true "B" dbFresh.nextChatId).2
      = [Emit.errorMsg "No messages found for this chat"]) :=
  ⟨by decide, by decide, rfl, rfl, by decide,
    ccm_not_atomic dbFresh [] [] "B" "A" 1 "hi" "imgB" "imgA"
      (by decide) (by decide) rfl rfl (by decide) rfl rfl (by decide) (by decide)⟩

end ReactStore
